import Mathlib

/-!
Shallow embedding of `src/stt.py` (class `WakeWordTranscriber` and `main`):
the configuration builders, the fallback initializer, the lifecycle-event
handlers, the supervising main loop, and shutdown, together with theorems
checking the specification's claims about them.

Modelling conventions:
* Python dicts with string keys become insertion-ordered association lists
  with `dict.update` semantics (`dictUpdate`).
* Numeric Python literals are embedded as `Nat` (ints) or `Rat` (float
  literals used as inert configuration data; no arithmetic is performed on
  them).  Bound callback methods are embedded by name.
* Console output (`print`) is the one fallible observer action; it is
  modelled by a `ConsoleEnv` saying which lines print successfully.  The
  `logging` calls are modelled as infallible emitted events.
* The external `AudioToTextRecorder` engine is abstract: construction is a
  function from the configuration to `Option handle` (`none` = the
  constructor raised, which `try_initialize_recorder` catches), and each
  `recorder.text()` call yields one `EngineOutcome` from a supplied list.
-/

/-- Values stored in an engine-configuration dictionary. -/
inductive ConfigValue
  | str (s : String)
  | nat (n : Nat)
  | rat (q : Rat)
  | bool (b : Bool)
  | intList (l : List Int)
  | callback (methodName : String)
  deriving DecidableEq, Repr

/-- A Python dict with string keys, as an insertion-ordered association list. -/
abbrev Config : Type := List (String × ConfigValue)

/-- Dict lookup: value of the first (hence unique, for a genuine dict) entry
whose key matches. -/
def dictGet : Config → String → Option ConfigValue
  | [], _ => none
  | (a, v) :: rest, k => if a = k then some v else dictGet rest k

/-- Setting one key of a dict: replace the value in place if the key exists,
otherwise append the new entry (Python insertion-order semantics). -/
def updateEntry : Config → String → ConfigValue → Config
  | [], k, v => [(k, v)]
  | (a, w) :: rest, k, v =>
      if a = k then (k, v) :: rest else (a, w) :: updateEntry rest k v

/-- `c.update(u)` for Python dicts: set every entry of `u` in `c`, in order. -/
def dictUpdate (c : Config) (u : Config) : Config :=
  u.foldl (fun acc p => updateEntry acc p.1 p.2) c

/-- `get_base_config` (src/stt.py lines 114-175): the shared configuration
dictionary, without wake words.  `logging.DEBUG` is its numeric value 10. -/
def get_base_config : Config :=
  [ ("model", .str "small.en"),
    ("language", .str "en"),
    ("compute_type", .str "float32"),
    ("device", .str "cpu"),
    ("input_device_index", .nat 3),
    ("spinner", .bool false),
    ("debug_mode", .bool true),
    ("level", .nat 10),
    ("print_transcription_time", .bool true),
    ("enable_realtime_transcription", .bool true),
    ("use_main_model_for_realtime", .bool false),
    ("realtime_model_type", .str "tiny"),
    ("realtime_processing_pause", .rat 0.1),
    ("realtime_batch_size", .nat 8),
    ("beam_size_realtime", .nat 3),
    ("silero_sensitivity", .rat 0.6),
    ("silero_use_onnx", .bool true),
    ("silero_deactivity_detection", .bool true),
    ("webrtc_sensitivity", .nat 2),
    ("post_speech_silence_duration", .rat 2.0),
    ("min_gap_between_recordings", .rat 0.5),
    ("min_length_of_recording", .rat 0.5),
    ("pre_recording_buffer_duration", .rat 0.3),
    ("use_microphone", .bool true),
    ("handle_buffer_overflow", .bool true),
    ("allowed_latency_limit", .nat 50),
    ("ensure_sentence_starting_uppercase", .bool true),
    ("ensure_sentence_ends_with_period", .bool true),
    ("batch_size", .nat 16),
    ("beam_size", .nat 5),
    ("suppress_tokens", .intList [-1]),
    ("early_transcription_on_silence", .nat 500),
    ("start_callback_in_new_thread", .bool false),
    ("on_recording_start", .callback "on_recording_start"),
    ("on_recording_stop", .callback "on_recording_stop"),
    ("on_transcription_start", .callback "on_transcription_start"),
    ("on_realtime_transcription_update", .callback "on_realtime_transcription_update"),
    ("on_realtime_transcription_stabilized", .callback "on_realtime_transcription_stabilized"),
    ("on_recorded_chunk", .callback "on_recorded_chunk"),
    ("on_vad_start", .callback "on_vad_start"),
    ("on_vad_stop", .callback "on_vad_stop"),
    ("on_vad_detect_start", .callback "on_vad_detect_start"),
    ("on_vad_detect_stop", .callback "on_vad_detect_stop") ]

/-- The dict passed to `config.update(...)` in `get_porcupine_config`
(src/stt.py lines 180-194). -/
def porcupine_update : Config :=
  [ ("wakeword_backend", .str "pvporcupine"),
    ("wake_words", .str "jarvis,computer"),
    ("wake_words_sensitivity", .rat 0.6),
    ("wake_word_activation_delay", .nat 0),
    ("wake_word_timeout", .rat 10.0),
    ("wake_word_buffer_duration", .rat 1.0),
    ("on_wakeword_detected", .callback "on_wakeword_detected"),
    ("on_wakeword_timeout", .callback "on_wakeword_timeout"),
    ("on_wakeword_detection_start", .callback "on_wakeword_detection_start"),
    ("on_wakeword_detection_end", .callback "on_wakeword_detection_end") ]

/-- The dict passed to `config.update(...)` in `get_oww_config`
(src/stt.py lines 200-214). -/
def oww_update : Config :=
  [ ("wakeword_backend", .str "oww"),
    ("openwakeword_model_paths", .str "hey_kaba.onnx,okay_kaaba.onnx"),
    ("openwakeword_inference_framework", .str "onnx"),
    ("wake_words_sensitivity", .rat 0.35),
    ("wake_word_activation_delay", .nat 0),
    ("wake_word_timeout", .rat 10.0),
    ("wake_word_buffer_duration", .rat 1.0),
    ("on_wakeword_detected", .callback "on_wakeword_detected"),
    ("on_wakeword_timeout", .callback "on_wakeword_timeout"),
    ("on_wakeword_detection_start", .callback "on_wakeword_detection_start"),
    ("on_wakeword_detection_end", .callback "on_wakeword_detection_end") ]

/-- `get_porcupine_config` (src/stt.py lines 177-195): a fresh base config
updated with the Porcupine-specific entries. -/
def get_porcupine_config : Config :=
  dictUpdate get_base_config porcupine_update

/-- `get_oww_config` (src/stt.py lines 197-216): a fresh base config updated
with the OpenWakeWord-specific entries. -/
def get_oww_config : Config :=
  dictUpdate get_base_config oww_update

/-- The mutable instance attributes set by `WakeWordTranscriber.__init__`
(src/stt.py lines 25-28).  These three booleans are the whole per-session
state the class maintains (the engine handle attribute `recorder` is tracked
separately because it is only set later, inside `start_listening`). -/
structure TranscriberState where
  is_transcribing : Bool
  wake_word_detected : Bool
  use_wake_words : Bool
  deriving DecidableEq, Repr

/-- The attribute values `__init__` assigns (src/stt.py lines 26-28). -/
def initTranscriberState : TranscriberState :=
  { is_transcribing := false, wake_word_detected := false, use_wake_words := true }

/-- The console the handlers print to.  `printOk line` says whether printing
that line succeeds; a `false` models `print` raising (e.g. a broken pipe). -/
structure ConsoleEnv where
  printOk : String → Bool

/-- One `print(line)` call: returns the printed line, or raises (the `.error`
carries the line whose print failed). -/
def cprint (env : ConsoleEnv) (line : String) : Except String String :=
  if env.printOk line then .ok line else .error line

/-- Whether an `Except` result is a normal return (no exception escaped). -/
def isOkE {α : Type} : Except String α → Bool
  | .ok _ => true
  | .error _ => false

/-- Python's `str.strip()`: the string with leading and trailing whitespace
removed. -/
def pyStrip (s : String) : String :=
  String.mk (((s.data.dropWhile Char.isWhitespace).reverse.dropWhile
    Char.isWhitespace).reverse)

/-- The 60-character line of equals signs printed by `print_separator`. -/
def sepLine : String := String.mk (List.replicate 60 '=')

/-- `print_separator` (src/stt.py lines 30-35): prints a newline plus the
separator line, and when `text` is non-empty also the indented text and a
second separator line.  There is no exception handling in the source, so a
failing print propagates. -/
def print_separator (env : ConsoleEnv) (text : String) : Except String (List String) :=
  match cprint env ("\n" ++ sepLine) with
  | .error e => .error e
  | .ok l1 =>
      if text ≠ "" then
        match cprint env ("  " ++ text) with
        | .error e => .error e
        | .ok l2 =>
            match cprint env sepLine with
            | .error e => .error e
            | .ok l3 => .ok [l1, l2, l3]
      else
        .ok [l1]

/-- `on_recording_start` (src/stt.py lines 37-41): sets `is_transcribing`
first, then prints.  The trailing `logger.info` is modelled as infallible. -/
def on_recording_start (env : ConsoleEnv) (s : TranscriberState) :
    TranscriberState × Except String (List String) :=
  ({ s with is_transcribing := true }, print_separator env "RECORDING STARTED")

/-- `on_recording_stop` (src/stt.py lines 43-47). -/
def on_recording_stop (env : ConsoleEnv) (s : TranscriberState) :
    TranscriberState × Except String (List String) :=
  ({ s with is_transcribing := false }, print_separator env "RECORDING STOPPED")

/-- `on_transcription_start` (src/stt.py lines 49-52): no state change. -/
def on_transcription_start (env : ConsoleEnv) : Except String (List String) :=
  print_separator env "TRANSCRIPTION STARTED"

/-- `on_realtime_transcription_update` (src/stt.py lines 54-58): prints only
when the stripped text is non-empty; no state change, no exception handling. -/
def on_realtime_transcription_update (env : ConsoleEnv) (text : String) :
    Except String (List String) :=
  if pyStrip text ≠ "" then
    match cprint env ("\rReal-time: " ++ text) with
    | .error e => .error e
    | .ok l => .ok [l]
  else
    .ok []

/-- `on_realtime_transcription_stabilized` (src/stt.py lines 60-64). -/
def on_realtime_transcription_stabilized (env : ConsoleEnv) (text : String) :
    Except String (List String) :=
  if pyStrip text ≠ "" then
    match cprint env ("\nStabilized: " ++ text) with
    | .error e => .error e
    | .ok l => .ok [l]
  else
    .ok []

/-- `on_wakeword_detected` (src/stt.py lines 90-95): unconditionally sets
`wake_word_detected = True` (first statement), then prints. -/
def on_wakeword_detected (env : ConsoleEnv) (s : TranscriberState) :
    TranscriberState × Except String (List String) :=
  ({ s with wake_word_detected := true },
   match print_separator env "WAKE WORD DETECTED!" with
   | .error e => .error e
   | .ok ls =>
       match cprint env "Wake word detected! Now listening for speech..." with
       | .error e => .error e
       | .ok l => .ok (ls ++ [l]))

/-- `on_wakeword_timeout` (src/stt.py lines 97-102): unconditionally sets
`wake_word_detected = False` (first statement), then prints. -/
def on_wakeword_timeout (env : ConsoleEnv) (s : TranscriberState) :
    TranscriberState × Except String (List String) :=
  ({ s with wake_word_detected := false },
   match print_separator env "WAKE WORD TIMEOUT" with
   | .error e => .error e
   | .ok ls =>
       match cprint env "No speech detected after wake word - going back to sleep..." with
       | .error e => .error e
       | .ok l => .ok (ls ++ [l]))

/-- The environment `start_listening` runs against: which files exist on
disk, whether the `openwakeword` package imports, and what
`AudioToTextRecorder(**config)` does on each configuration (`none` models
the constructor raising, which `try_initialize_recorder` catches and turns
into a `None` return, src/stt.py lines 246-260). -/
structure InitEnv (ρ : Type) where
  fileExists : String → Bool
  owwInstalled : Bool
  construct : Config → Option ρ

/-- The wake word model files checked by `check_model_files`
(src/stt.py line 230). -/
def model_files : List String := ["hey_kaba.onnx", "okay_kaaba.onnx"]

/-- `check_model_files` (src/stt.py lines 228-244): true iff no model file
is missing. -/
def check_model_files {ρ : Type} (env : InitEnv ρ) : Bool :=
  (model_files.filter (fun f => !env.fileExists f)).isEmpty

/-- `check_dependencies` (src/stt.py lines 218-226): true iff the
`openwakeword` import succeeds. -/
def check_dependencies {ρ : Type} (env : InitEnv ρ) : Bool :=
  env.owwInstalled

/-- `try_initialize_recorder` (src/stt.py lines 246-260): attempts engine
construction; any exception is caught and `None` returned. -/
def try_initialize_recorder {ρ : Type} (env : InitEnv ρ) (config : Config) : Option ρ :=
  env.construct config

/-- The three backend candidates of the fallback cascade, in source order
(src/stt.py lines 272-297). -/
inductive Backend
  | oww
  | porcupine
  | vadOnly
  deriving DecidableEq, Repr

/-- What the initialization section of `start_listening` produced: the
recorder (if any), which constructions were attempted in order, which
candidate won, and the resulting `use_wake_words` flag. -/
structure InitOutcome (ρ : Type) where
  recorder : Option ρ
  attempts : List Backend
  chosen : Option Backend
  use_wake_words : Bool

/-- Steps 2 and 3 of the cascade (src/stt.py lines 282-297), entered with
the attempts `a1` already made by step 1: try Porcupine, then fall back to
the base (voice-activity-only) configuration.  Entering step 3 sets
`use_wake_words = False` before the construction attempt, so the flag is
false whether or not that attempt succeeds. -/
def initAfterOww {ρ : Type} (env : InitEnv ρ) (useww0 : Bool) (a1 : List Backend) :
    InitOutcome ρ :=
  match try_initialize_recorder env get_porcupine_config with
  | some r => ⟨some r, a1 ++ [.porcupine], some .porcupine, useww0⟩
  | none =>
      match try_initialize_recorder env get_base_config with
      | some r => ⟨some r, a1 ++ [.porcupine, .vadOnly], some .vadOnly, false⟩
      | none => ⟨none, a1 ++ [.porcupine, .vadOnly], none, false⟩

/-- The fallback cascade of `start_listening` (src/stt.py lines 270-297):
step 1 tries OpenWakeWord only when both probes pass; each later step runs
only while `recorder` is still `None`.  `useww0` is the incoming
`self.use_wake_words` value (`True` from `__init__`). -/
def initFallback {ρ : Type} (env : InitEnv ρ) (useww0 : Bool) : InitOutcome ρ :=
  if check_model_files env && check_dependencies env then
    match try_initialize_recorder env get_oww_config with
    | some r => ⟨some r, [.oww], some .oww, useww0⟩
    | none => initAfterOww env useww0 [.oww]
  else
    initAfterOww env useww0 []

/-- The fixed preference order of the cascade. -/
def candidateOrder : List Backend := [.oww, .porcupine, .vadOnly]

/-- Position of a backend in the preference order. -/
def orderIdx : Backend → Nat
  | .oww => 0
  | .porcupine => 1
  | .vadOnly => 2

/-- The capability probe guarding each candidate: only the OpenWakeWord
candidate is probed (model files plus dependency, src/stt.py line 275). -/
def probePass {ρ : Type} (env : InitEnv ρ) : Backend → Bool
  | .oww => check_model_files env && check_dependencies env
  | .porcupine => true
  | .vadOnly => true

/-- The configuration each candidate is constructed with. -/
def configOf : Backend → Config
  | .oww => get_oww_config
  | .porcupine => get_porcupine_config
  | .vadOnly => get_base_config

/-- A candidate is eligible when it passes its capability probe and its
engine construction succeeds. -/
def eligible {ρ : Type} (env : InitEnv ρ) (b : Backend) : Bool :=
  probePass env b && (env.construct (configOf b)).isSome

/-- One result of a `self.recorder.text()` call in the main loop: finalized
text (`""` also stands for a `None` return, which the `if text and ...`
guard treats identically), an engine exception, or a `KeyboardInterrupt`. -/
inductive EngineOutcome
  | text (t : String)
  | err (e : String)
  | interrupt
  deriving DecidableEq, Repr

/-- Observable steps of one run of the main loop. -/
inductive LoopStep
  | outLine (line : String)
  | logError (m : String)
  | logInfo (m : String)
  | sleep (secs : Nat)
  deriving DecidableEq, Repr

/-- How the `while True` loop ended: `brk` is the `break` on
`KeyboardInterrupt`; `exhausted` means the supplied outcome list ran out
while the loop would still be running. -/
inductive LoopExit
  | brk
  | exhausted
  deriving DecidableEq, Repr

/-- The loop steps of a successful `print_separator(text)` call with
non-empty `text`, as `outLine` events. -/
def sepEvents (text : String) : List LoopStep :=
  [.outLine ("\n" ++ sepLine), .outLine ("  " ++ text), .outLine sepLine]

/-- The loop steps of one non-empty finalized transcription (src/stt.py
lines 322-330): the FINAL TRANSCRIPTION separator, the final-text print,
the log entry, and the listening-again prompt chosen by `use_wake_words`. -/
def finalEvents (s : TranscriberState) (t : String) : List LoopStep :=
  sepEvents "FINAL TRANSCRIPTION" ++
    [.outLine ("Final text: " ++ t), .logInfo ("Final transcription: " ++ t)] ++
    (if s.use_wake_words then
      [.outLine "\nListening for wake words again..."]
    else
      [.outLine "\nListening for more speech..."])

/-- The main listening loop (src/stt.py lines 316-337), driven by one
`EngineOutcome` per iteration.  The loop body assigns no attribute, so the
state is passed through unchanged; console output inside the loop is
modelled as always-succeeding event emission. -/
def loop (s : TranscriberState) :
    List EngineOutcome → TranscriberState × List LoopStep × LoopExit
  | [] => (s, [], .exhausted)
  | .interrupt :: _ => (s, [], .brk)
  | .err e :: rest =>
      let r := loop s rest
      (r.1,
       .logError ("Error during transcription: " ++ e) ::
         .outLine ("Error during transcription: " ++ e) :: .sleep 1 :: r.2.1,
       r.2.2)
  | .text t :: rest =>
      if t ≠ "" ∧ pyStrip t ≠ "" then
        let r := loop s rest
        (r.1, finalEvents s t ++ r.2.1, r.2.2)
      else
        loop s rest

/-- How `start_listening` returned: early return because no configuration
initialized (src/stt.py lines 299-301), or via the loop. -/
inductive RunExit
  | initFailed
  | brk
  | exhausted
  deriving DecidableEq, Repr

/-- A `WakeWordTranscriber` instance: the `__init__` flags plus the
`recorder` attribute, which is only assigned (src/stt.py line 303) after a
successful initialization — `none` models the attribute being absent. -/
structure Transcriber (ρ : Type) where
  state : TranscriberState
  recorder : Option ρ
  deriving DecidableEq, Repr

/-- A fresh `WakeWordTranscriber()` (src/stt.py lines 25-28). -/
def initTranscriber {ρ : Type} : Transcriber ρ :=
  { state := initTranscriberState, recorder := none }

/-- `start_listening` (src/stt.py lines 262-341): run the fallback cascade;
on total failure return early without touching `self.recorder`; otherwise
bind the recorder and run the main loop on the supplied engine outcomes. -/
def start_listening {ρ : Type} (env : InitEnv ρ) (outs : List EngineOutcome)
    (t : Transcriber ρ) : Transcriber ρ × List LoopStep × RunExit :=
  let io := initFallback env t.state.use_wake_words
  let s1 := { t.state with use_wake_words := io.use_wake_words }
  match io.recorder with
  | none => ({ t with state := s1 }, [], .initFailed)
  | some r =>
      let res := loop s1 outs
      (⟨res.1, some r⟩, res.2.1,
       match res.2.2 with
       | .brk => .brk
       | .exhausted => .exhausted)

/-- Observable steps of `shutdown`. -/
inductive ShutEvent
  | outLine (line : String)
  | releaseCall
  | logInfo (m : String)
  | logError (m : String)
  deriving DecidableEq, Repr

/-- `shutdown` (src/stt.py lines 343-354): a no-op unless the `recorder`
attribute is set and truthy; otherwise print, call `recorder.shutdown()`
(whose success is `releaseOk r`), and catch any exception from it, logging
instead of re-raising.  No attribute is assigned, so the transcriber is
returned unchanged. -/
def shutdown {ρ : Type} (releaseOk : ρ → Bool) (t : Transcriber ρ) :
    Transcriber ρ × List ShutEvent :=
  match t.recorder with
  | none => (t, [])
  | some r =>
      let pre : List ShutEvent :=
        [.outLine ("\n" ++ sepLine), .outLine "  SHUTTING DOWN", .outLine sepLine,
         .outLine "Shutting down recorder...", .releaseCall]
      if releaseOk r then
        (t, pre ++ [.logInfo "Recorder shutdown completed",
                    .outLine "Shutdown completed successfully"])
      else
        (t, pre ++ [.logError "Error during shutdown",
                    .outLine "Error during shutdown"])

/-- Everything observable about one run of `main`. -/
structure MainResult (ρ : Type) where
  transcriber : Transcriber ρ
  loopEvents : List LoopStep
  exit : RunExit
  shutdownEvents : List ShutEvent

/-- `main` (src/stt.py lines 356-369): construct the transcriber, run
`start_listening` (whose internal handlers absorb loop errors and whose
interrupt handling ends the loop), and — in the `finally` block — always
run `shutdown`, whatever way `start_listening` ended. -/
def mainRun {ρ : Type} (env : InitEnv ρ) (releaseOk : ρ → Bool)
    (outs : List EngineOutcome) : MainResult ρ :=
  let r1 := start_listening env outs (initTranscriber (ρ := ρ))
  let r2 := shutdown releaseOk r1.1
  { transcriber := r2.1, loopEvents := r1.2.1, exit := r1.2.2,
    shutdownEvents := r2.2 }

/-! Helper lemmas. -/

/-- Looking a key up after setting one entry. -/
theorem dictGet_updateEntry (c : Config) (k k' : String) (v : ConfigValue) :
    dictGet (updateEntry c k v) k' = if k = k' then some v else dictGet c k' := by
  induction c with
  | nil => simp [updateEntry, dictGet]
  | cons p rest ih =>
      obtain ⟨a, w⟩ := p
      by_cases hak : a = k
      · subst hak
        by_cases h : a = k' <;> simp [updateEntry, dictGet, h]
      · by_cases h1 : a = k' <;> by_cases h2 : k = k' <;>
          simp_all [updateEntry, dictGet]

/-- A key that occurs nowhere in a dict looks up to `none`. -/
theorem dictGet_eq_none_of_not_mem (c : Config) (k : String)
    (h : k ∉ c.map Prod.fst) : dictGet c k = none := by
  induction c with
  | nil => rfl
  | cons p rest ih =>
      obtain ⟨a, w⟩ := p
      simp only [List.map_cons, List.mem_cons] at h
      push_neg at h
      simp only [dictGet]
      rw [if_neg (fun hh => h.1 hh.symm), ih h.2]

/-- `dict.update` characterization: after `c.update(u)` (with `u` a genuine
dict, i.e. no duplicate keys), a key looks up to its `u`-value when `u` has
one, and to its `c`-value otherwise. -/
theorem dictGet_dictUpdate (u : Config) :
    ∀ (c : Config) (k : String), (u.map Prod.fst).Nodup →
      dictGet (dictUpdate c u) k =
        (match dictGet u k with
         | some v => some v
         | none => dictGet c k) := by
  induction u with
  | nil => intro c k _; rfl
  | cons p u' ih =>
      intro c k hu
      obtain ⟨a, v⟩ := p
      simp only [List.map_cons, List.nodup_cons] at hu
      have hdu : dictUpdate c ((a, v) :: u') = dictUpdate (updateEntry c a v) u' := rfl
      rw [hdu, ih (updateEntry c a v) k hu.2]
      by_cases hak : a = k
      · subst hak
        have hnone : dictGet u' a = none :=
          dictGet_eq_none_of_not_mem u' a hu.1
        simp [dictGet, hnone, dictGet_updateEntry]
      · cases hmem : dictGet u' k <;>
          simp [dictGet, hak, dictGet_updateEntry, hmem]

/-- The main loop assigns no attribute: the transcriber state it returns is
the one it was entered with. -/
theorem loop_state (s : TranscriberState) :
    ∀ outs : List EngineOutcome, (loop s outs).1 = s := by
  intro outs
  induction outs with
  | nil => rfl
  | cons o rest ih =>
      cases o with
      | text t => by_cases h : t ≠ "" ∧ pyStrip t ≠ "" <;> simp [loop, h, ih]
      | err e => simp [loop, ih]
      | interrupt => rfl

/-! Claim theorems. -/

/-- Claim C9: the configuration builders are pure functions of the backend
kind (in this embedding they are constants of `Config`, so determinism and
freshness are structural, and neither touches any engine); each wake-word
builder's output is exactly the base configuration overridden/extended by
its listed backend-specific entries and wake-word callbacks: a key looks up
to the update-dict value when the update dict lists it, and to the base
value otherwise. -/
theorem C9_builders_layer_base :
    get_porcupine_config = dictUpdate get_base_config porcupine_update ∧
    get_oww_config = dictUpdate get_base_config oww_update ∧
    (∀ k : String,
       dictGet get_porcupine_config k =
         (match dictGet porcupine_update k with
          | some v => some v
          | none => dictGet get_base_config k)) ∧
    (∀ k : String,
       dictGet get_oww_config k =
         (match dictGet oww_update k with
          | some v => some v
          | none => dictGet get_base_config k)) := by
  refine ⟨rfl, rfl, ?_, ?_⟩
  · intro k
    exact dictGet_dictUpdate porcupine_update get_base_config k (by decide)
  · intro k
    exact dictGet_dictUpdate oww_update get_base_config k (by decide)

/-- Claim C2: in the main loop, an engine exception other than
`KeyboardInterrupt` is logged, followed by the fixed 1-second sleep, and the
loop retries with the remaining outcomes; the loop ends with `break` exactly
when a `KeyboardInterrupt` occurs (so it never exits on its own on errors),
and a `KeyboardInterrupt` ends the loop cleanly, emitting nothing. -/
theorem C2_loop_unbounded_retry (s : TranscriberState) (outs : List EngineOutcome) :
    ((loop s outs).2.2 = LoopExit.brk ↔ EngineOutcome.interrupt ∈ outs) ∧
    (∀ (e : String) (rest : List EngineOutcome),
       loop s (EngineOutcome.err e :: rest) =
         ((loop s rest).1,
          LoopStep.logError ("Error during transcription: " ++ e) ::
            LoopStep.outLine ("Error during transcription: " ++ e) ::
              LoopStep.sleep 1 :: (loop s rest).2.1,
          (loop s rest).2.2)) ∧
    (∀ rest : List EngineOutcome,
       loop s (EngineOutcome.interrupt :: rest) = (s, [], LoopExit.brk)) := by
  refine ⟨?_, fun e rest => rfl, fun rest => rfl⟩
  induction outs with
  | nil => simp [loop]
  | cons o rest ih =>
      cases o with
      | text t => by_cases h : t ≠ "" ∧ pyStrip t ≠ "" <;> simp [loop, h, ih]
      | err e => simp [loop, ih]
      | interrupt => simp [loop]

/-- Claim C3 counterexample: one main-loop iteration on the non-empty
finalized text "hello world" surfaces the text but leaves the transcriber
state — the complete record of attributes `__init__` creates — unchanged, so
no component of the session is incremented: the code maintains no
finalized-transcript count (and hence exposes no such read-only query). -/
theorem C3_counterexample :
    (loop initTranscriberState [EngineOutcome.text "hello world"]).1 =
      initTranscriberState ∧
    (loop initTranscriberState [EngineOutcome.text "hello world"]).2.1 =
      finalEvents initTranscriberState "hello world" := by
  constructor
  · rfl
  · rfl

/-- Claim C3 (amended): for every main-loop iteration in which the engine
returns finalized text that is non-empty after stripping, the text is
surfaced to observers exactly once (the FINAL TRANSCRIPTION separator, the
final-text print, and the log entry of `finalEvents`), and the transcriber
state is unchanged — the code maintains no finalized-transcript count and no
read-only count query. -/
theorem C3_amended_surface_no_count (s : TranscriberState) (t : String)
    (rest : List EngineOutcome) (h : t ≠ "" ∧ pyStrip t ≠ "") :
    loop s (EngineOutcome.text t :: rest) =
      (s, finalEvents s t ++ (loop s rest).2.1, (loop s rest).2.2) := by
  have hs := loop_state s rest
  simp [loop, h, hs]

/-- Witness for the amended C3 at the concrete text "hi". -/
theorem C3_amended_witness :
    ("hi" ≠ "" ∧ pyStrip "hi" ≠ "") ∧
    loop initTranscriberState [EngineOutcome.text "hi"] =
      (initTranscriberState, finalEvents initTranscriberState "hi",
       LoopExit.exhausted) := by
  refine ⟨by decide, ?_⟩
  have h := C3_amended_surface_no_count initTranscriberState "hi" [] (by decide)
  simpa using h

/-- Claim C10: calling `shutdown` on a transcriber whose `recorder`
attribute was never set is a no-op: it returns normally, changes nothing,
and performs no engine release. -/
theorem C10_shutdown_noop {ρ : Type} (relOk : ρ → Bool) (t : Transcriber ρ)
    (h : t.recorder = none) :
    shutdown relOk t = (t, []) := by
  simp [shutdown, h]

/-- Witness for C10: a freshly constructed transcriber. -/
theorem C10_witness :
    (initTranscriber (ρ := Nat)).recorder = none ∧
    shutdown (fun _ => true) (initTranscriber (ρ := Nat)) = (initTranscriber, []) :=
  ⟨rfl, C10_shutdown_noop (fun _ => true) initTranscriber rfl⟩

/-- Claim C4 counterexample: a `WakeWordTimeout` delivered while recording
speech (`is_transcribing = true` with the wake-word flag set) does NOT leave
the session state unchanged — the handler unconditionally clears
`wake_word_detected` whatever the current state is. -/
theorem C4_counterexample :
    (on_wakeword_timeout { printOk := fun _ => true }
        { is_transcribing := true, wake_word_detected := true,
          use_wake_words := true }).1 ≠
      { is_transcribing := true, wake_word_detected := true,
        use_wake_words := true } := by
  decide

/-- Claim C4 (amended): the event handlers perform no state validation at
all — each unconditionally assigns its flag, so handling any event in any
state returns normally (with succeeding observers) and is never promoted to
a fatal error, but an invalid event does not always leave the state
unchanged: `WakeWordTimeout` clears the wake-word flag even while recording,
while `WakeWordDetected` arriving when the flag is already set (e.g. while
already recording speech) does leave the state unchanged. -/
theorem C4_amended_handlers_unconditional (env : ConsoleEnv) (s : TranscriberState) :
    (on_wakeword_detected env s).1 = { s with wake_word_detected := true } ∧
    (on_wakeword_timeout env s).1 = { s with wake_word_detected := false } ∧
    (on_recording_start env s).1 = { s with is_transcribing := true } ∧
    (on_recording_stop env s).1 = { s with is_transcribing := false } ∧
    (s.wake_word_detected = true → (on_wakeword_detected env s).1 = s) ∧
    ((∀ l : String, env.printOk l = true) →
       isOkE (on_wakeword_detected env s).2 = true ∧
       isOkE (on_wakeword_timeout env s).2 = true ∧
       isOkE (on_recording_start env s).2 = true ∧
       isOkE (on_recording_stop env s).2 = true) := by
  refine ⟨rfl, rfl, rfl, rfl, ?_, ?_⟩
  · intro h
    cases s
    simp_all [on_wakeword_detected]
  · intro h
    refine ⟨?_, ?_, ?_, ?_⟩ <;>
      simp [on_wakeword_detected, on_wakeword_timeout, on_recording_start,
        on_recording_stop, print_separator, cprint, isOkE, h]

/-- Witness for the amended C4: `WakeWordDetected` while already recording
with the flag set changes nothing, and `WakeWordTimeout` returns normally. -/
theorem C4_amended_witness :
    (({ is_transcribing := true, wake_word_detected := true,
        use_wake_words := true } : TranscriberState).wake_word_detected = true) ∧
    (on_wakeword_detected { printOk := fun _ => true }
        { is_transcribing := true, wake_word_detected := true,
          use_wake_words := true }).1 =
      { is_transcribing := true, wake_word_detected := true,
        use_wake_words := true } ∧
    isOkE (on_wakeword_timeout { printOk := fun _ => true }
        { is_transcribing := true, wake_word_detected := true,
          use_wake_words := true }).2 = true :=
  ⟨rfl,
   (C4_amended_handlers_unconditional { printOk := fun _ => true } _).2.2.2.2.1 rfl,
   ((C4_amended_handlers_unconditional { printOk := fun _ => true } _).2.2.2.2.2
     (fun _ => rfl)).2.1⟩

/-- Claim C5 counterexample: a failure inside an observer action is NOT
caught within dispatch — with a console whose print raises, the real-time
update handler propagates the exception (the failed line) to its caller
instead of catching and logging it. -/
theorem C5_counterexample :
    on_realtime_transcription_update { printOk := fun _ => false } "hello" =
      Except.error "\rReal-time: hello" := by
  rfl

/-- Claim C5 (amended): dispatch adds no exception handling of its own:
when every observer action succeeds the handlers return normally (never
raise), but a failure inside an observer action propagates out of the
handler unchanged — an error result is always exactly a line whose print
failed. -/
theorem C5_amended_dispatch_propagates (env : ConsoleEnv) :
    ((∀ l : String, env.printOk l = true) →
       (∀ text : String,
          isOkE (on_realtime_transcription_update env text) = true ∧
          isOkE (on_realtime_transcription_stabilized env text) = true) ∧
       (∀ text : String, isOkE (print_separator env text) = true) ∧
       (∀ s : TranscriberState,
          isOkE (on_recording_start env s).2 = true ∧
          isOkE (on_recording_stop env s).2 = true)) ∧
    (∀ text e : String,
       on_realtime_transcription_update env text = Except.error e →
       env.printOk e = false) := by
  constructor
  · intro h
    refine ⟨fun text => ⟨?_, ?_⟩, fun text => ?_, fun s => ⟨?_, ?_⟩⟩ <;>
      simp [on_realtime_transcription_update, on_realtime_transcription_stabilized,
        on_recording_start, on_recording_stop, print_separator, cprint, isOkE, h] <;>
      split_ifs <;> rfl
  · intro text e hE
    by_cases ht : pyStrip text ≠ ""
    · rw [on_realtime_transcription_update, if_pos ht] at hE
      by_cases hp : env.printOk ("\rReal-time: " ++ text) = true
      · rw [show cprint env ("\rReal-time: " ++ text) =
              Except.ok ("\rReal-time: " ++ text) from by simp [cprint, hp]] at hE
        simp at hE
      · rw [show cprint env ("\rReal-time: " ++ text) =
              Except.error ("\rReal-time: " ++ text) from by simp [cprint, hp]] at hE
        have he : ("\rReal-time: " ++ text) = e := by
          simpa using hE
        rw [← he]
        simpa using hp
    · rw [on_realtime_transcription_update, if_neg ht] at hE
      simp at hE

/-- Witness for the amended C5 at a concrete all-succeeding console. -/
theorem C5_amended_witness :
    (({ printOk := fun _ => true } : ConsoleEnv).printOk "x" = true) ∧
    isOkE (on_realtime_transcription_update { printOk := fun _ => true } "hi") =
      true :=
  ⟨rfl,
   (((C5_amended_dispatch_propagates { printOk := fun _ => true }).1
       (fun _ => rfl)).1 "hi").1⟩

/-- Claim C1: if at least one candidate both passes its capability probe and
constructs successfully, the cascade binds the session to the first such
candidate in the order OpenWakeWord, Porcupine, voice-activity-only: the
chosen backend is the first eligible one, the recorder is that candidate's
construction result, no candidate after it is ever attempted, and
`start_listening` binds `self.recorder` to that engine handle. -/
theorem C1_first_eligible_wins {ρ : Type} (env : InitEnv ρ) (b : Backend)
    (h : candidateOrder.find? (eligible env) = some b) :
    (initFallback env true).chosen = some b ∧
    (initFallback env true).recorder = env.construct (configOf b) ∧
    (∀ a ∈ (initFallback env true).attempts, orderIdx a ≤ orderIdx b) ∧
    (∀ outs : List EngineOutcome,
       (start_listening env outs initTranscriber).1.recorder =
         env.construct (configOf b)) := by
  cases hp : (check_model_files env && check_dependencies env) with
  | true =>
      cases hc1 : env.construct get_oww_config with
      | some r1 =>
          have hb : Backend.oww = b := by
            simpa [candidateOrder, eligible, probePass, configOf, hp, hc1] using h
          subst hb
          refine ⟨?_, ?_, ?_, fun outs => ?_⟩ <;>
            simp [initFallback, initAfterOww, try_initialize_recorder, hp, hc1,
              start_listening, initTranscriber, initTranscriberState, configOf,
              orderIdx]
      | none =>
          cases hc2 : env.construct get_porcupine_config with
          | some r2 =>
              have hb : Backend.porcupine = b := by
                simpa [candidateOrder, eligible, probePass, configOf, hp, hc1,
                  hc2] using h
              subst hb
              refine ⟨?_, ?_, ?_, fun outs => ?_⟩ <;>
                simp [initFallback, initAfterOww, try_initialize_recorder, hp,
                  hc1, hc2, start_listening, initTranscriber,
                  initTranscriberState, configOf, orderIdx]
          | none =>
              cases hc3 : env.construct get_base_config with
              | some r3 =>
                  have hb : Backend.vadOnly = b := by
                    simpa [candidateOrder, eligible, probePass, configOf, hp,
                      hc1, hc2, hc3] using h
                  subst hb
                  refine ⟨?_, ?_, ?_, fun outs => ?_⟩ <;>
                    simp [initFallback, initAfterOww, try_initialize_recorder,
                      hp, hc1, hc2, hc3, start_listening, initTranscriber,
                      initTranscriberState, configOf, orderIdx]
              | none =>
                  exfalso
                  simp [candidateOrder, eligible, probePass, configOf, hp, hc1,
                    hc2, hc3] at h
  | false =>
      cases hc2 : env.construct get_porcupine_config with
      | some r2 =>
          have hb : Backend.porcupine = b := by
            simpa [candidateOrder, eligible, probePass, configOf, hp, hc2] using h
          subst hb
          refine ⟨?_, ?_, ?_, fun outs => ?_⟩ <;>
            simp [initFallback, initAfterOww, try_initialize_recorder, hp, hc2,
              start_listening, initTranscriber, initTranscriberState, configOf,
              orderIdx]
      | none =>
          cases hc3 : env.construct get_base_config with
          | some r3 =>
              have hb : Backend.vadOnly = b := by
                simpa [candidateOrder, eligible, probePass, configOf, hp, hc2,
                  hc3] using h
              subst hb
              refine ⟨?_, ?_, ?_, fun outs => ?_⟩ <;>
                simp [initFallback, initAfterOww, try_initialize_recorder, hp,
                  hc2, hc3, start_listening, initTranscriber,
                  initTranscriberState, configOf, orderIdx]
          | none =>
              exfalso
              simp [candidateOrder, eligible, probePass, configOf, hp, hc2,
                hc3] at h

/-- Witness for C1: with all assets present and every construction
succeeding, the first candidate (OpenWakeWord) is the one chosen. -/
theorem C1_witness :
    (candidateOrder.find?
        (eligible (⟨fun _ => true, true, fun _ => some 1⟩ : InitEnv Nat)) =
      some Backend.oww) ∧
    (initFallback (⟨fun _ => true, true, fun _ => some 1⟩ : InitEnv Nat)
        true).chosen = some Backend.oww :=
  ⟨rfl,
   (C1_first_eligible_wins (⟨fun _ => true, true, fun _ => some 1⟩ : InitEnv Nat)
     Backend.oww rfl).1⟩

/-- Claim C6: once initialization completes, `use_wake_words` is determined
solely by which backend succeeded (true for either wake-word backend, false
for voice-activity-only), and no lifecycle-event handler, main-loop
iteration, or shutdown step changes it afterward. -/
theorem C6_use_wake_words_fixed {ρ : Type} (env : InitEnv ρ) (b : Backend)
    (h : (initFallback env true).chosen = some b) :
    ((initFallback env true).use_wake_words = true ↔ b ≠ Backend.vadOnly) ∧
    (∀ (cenv : ConsoleEnv) (s : TranscriberState),
       (on_wakeword_detected cenv s).1.use_wake_words = s.use_wake_words ∧
       (on_wakeword_timeout cenv s).1.use_wake_words = s.use_wake_words ∧
       (on_recording_start cenv s).1.use_wake_words = s.use_wake_words ∧
       (on_recording_stop cenv s).1.use_wake_words = s.use_wake_words) ∧
    (∀ (s : TranscriberState) (outs : List EngineOutcome),
       (loop s outs).1.use_wake_words = s.use_wake_words) ∧
    (∀ (relOk : ρ → Bool) (t : Transcriber ρ), (shutdown relOk t).1 = t) := by
  refine ⟨?_, fun cenv s => ⟨rfl, rfl, rfl, rfl⟩,
    fun s outs => by rw [loop_state], ?_⟩
  · cases hp : (check_model_files env && check_dependencies env) with
    | true =>
        cases hc1 : env.construct get_oww_config with
        | some r1 =>
            have hb : Backend.oww = b := by
              simpa [initFallback, try_initialize_recorder, hp, hc1] using h
            subst hb
            simp [initFallback, try_initialize_recorder, hp, hc1]
        | none =>
            cases hc2 : env.construct get_porcupine_config with
            | some r2 =>
                have hb : Backend.porcupine = b := by
                  simpa [initFallback, initAfterOww, try_initialize_recorder,
                    hp, hc1, hc2] using h
                subst hb
                simp [initFallback, initAfterOww, try_initialize_recorder, hp,
                  hc1, hc2]
            | none =>
                cases hc3 : env.construct get_base_config with
                | some r3 =>
                    have hb : Backend.vadOnly = b := by
                      simpa [initFallback, initAfterOww, try_initialize_recorder,
                        hp, hc1, hc2, hc3] using h
                    subst hb
                    simp [initFallback, initAfterOww, try_initialize_recorder,
                      hp, hc1, hc2, hc3]
                | none =>
                    exfalso
                    simp [initFallback, initAfterOww, try_initialize_recorder,
                      hp, hc1, hc2, hc3] at h
    | false =>
        cases hc2 : env.construct get_porcupine_config with
        | some r2 =>
            have hb : Backend.porcupine = b := by
              simpa [initFallback, initAfterOww, try_initialize_recorder, hp,
                hc2] using h
            subst hb
            simp [initFallback, initAfterOww, try_initialize_recorder, hp, hc2]
        | none =>
            cases hc3 : env.construct get_base_config with
            | some r3 =>
                have hb : Backend.vadOnly = b := by
                  simpa [initFallback, initAfterOww, try_initialize_recorder,
                    hp, hc2, hc3] using h
                subst hb
                simp [initFallback, initAfterOww, try_initialize_recorder, hp,
                  hc2, hc3]
            | none =>
                exfalso
                simp [initFallback, initAfterOww, try_initialize_recorder, hp,
                  hc2, hc3] at h
  · intro relOk t
    cases hr : t.recorder with
    | none => simp [shutdown, hr]
    | some r => cases hrel : relOk r <;> simp [shutdown, hr, hrel]

/-- Witness for C6: with everything available, the OpenWakeWord backend is
chosen and `use_wake_words` stays true. -/
theorem C6_witness :
    ((initFallback (⟨fun _ => true, true, fun _ => some 1⟩ : InitEnv Nat)
        true).chosen = some Backend.oww) ∧
    ((initFallback (⟨fun _ => true, true, fun _ => some 1⟩ : InitEnv Nat)
        true).use_wake_words = true ↔ Backend.oww ≠ Backend.vadOnly) :=
  ⟨rfl,
   (C6_use_wake_words_fixed (⟨fun _ => true, true, fun _ => some 1⟩ : InitEnv Nat)
     Backend.oww rfl).1⟩

/-- Claim C8: when every candidate is skipped by its probe or fails
construction, `start_listening` returns early with the init-failure exit,
never enters the main loop (no loop events), never sets the `recorder`
attribute, and no construction attempt ever produced an engine handle (no
resource is held). -/
theorem C8_total_failure {ρ : Type} (env : InitEnv ρ) (outs : List EngineOutcome)
    (h : ∀ b ∈ candidateOrder, eligible env b = false) :
    (start_listening env outs (initTranscriber (ρ := ρ))).1.recorder = none ∧
    (start_listening env outs initTranscriber).2.1 = [] ∧
    (start_listening env outs initTranscriber).2.2 = RunExit.initFailed ∧
    (initFallback env true).recorder = none ∧
    (∀ b ∈ (initFallback env true).attempts,
       env.construct (configOf b) = none) := by
  cases hc2 : env.construct get_porcupine_config with
  | some r =>
      exfalso
      have hb := h Backend.porcupine (by simp [candidateOrder])
      simp [eligible, probePass, configOf, hc2] at hb
  | none =>
      cases hc3 : env.construct get_base_config with
      | some r =>
          exfalso
          have hb := h Backend.vadOnly (by simp [candidateOrder])
          simp [eligible, probePass, configOf, hc3] at hb
      | none =>
          cases hp : (check_model_files env && check_dependencies env) with
          | false =>
              refine ⟨?_, ?_, ?_, ?_, ?_⟩ <;>
                simp [start_listening, initFallback, initAfterOww,
                  try_initialize_recorder, hp, hc2, hc3, initTranscriber,
                  initTranscriberState, configOf]
          | true =>
              cases hc1 : env.construct get_oww_config with
              | some r =>
                  exfalso
                  have hb := h Backend.oww (by simp [candidateOrder])
                  simp [eligible, probePass, configOf, hp, hc1] at hb
              | none =>
                  refine ⟨?_, ?_, ?_, ?_, ?_⟩ <;>
                    simp [start_listening, initFallback, initAfterOww,
                      try_initialize_recorder, hp, hc1, hc2, hc3,
                      initTranscriber, initTranscriberState, configOf]

/-- Witness for C8: an environment in which every construction fails. -/
theorem C8_witness :
    ((start_listening (⟨fun _ => true, true, fun _ => none⟩ : InitEnv Nat) []
        initTranscriber).2.2 = RunExit.initFailed) ∧
    ((start_listening (⟨fun _ => true, true, fun _ => none⟩ : InitEnv Nat) []
        initTranscriber).1.recorder = none) := by
  have h := C8_total_failure (⟨fun _ => true, true, fun _ => none⟩ : InitEnv Nat)
    [] (by intro b hb; cases b <;> rfl)
  exact ⟨h.2.2.1, h.1⟩

/-- Claim C7 counterexample: shutdown does not move the session to any
`Closed` terminal state — after two shutdown calls the transcriber is
completely unchanged (flags untouched, engine reference still held), and a
subsequent wake-word event still mutates the state, so the post-shutdown
session is not absorbing. -/
theorem C7_counterexample :
    ((shutdown (fun _ => true)
        ((shutdown (fun _ => true)
            ({ state := { is_transcribing := true, wake_word_detected := false,
                          use_wake_words := true },
               recorder := some 0 } : Transcriber Nat)).1)).1 =
      ({ state := { is_transcribing := true, wake_word_detected := false,
                    use_wake_words := true },
         recorder := some 0 } : Transcriber Nat)) ∧
    ((on_wakeword_detected { printOk := fun _ => true }
        ((shutdown (fun _ => true)
            ({ state := { is_transcribing := true, wake_word_detected := false,
                          use_wake_words := true },
               recorder := some 0 } : Transcriber Nat)).1).state).1 ≠
      ((shutdown (fun _ => true)
          ({ state := { is_transcribing := true, wake_word_detected := false,
                        use_wake_words := true },
             recorder := some 0 } : Transcriber Nat)).1).state) := by
  constructor
  · rfl
  · decide

/-- Claim C7 (amended): `shutdown` is idempotent — it never mutates the
transcriber, so a second call returns exactly the same (error-free) result
as the first; a failure raised while releasing the engine handle is logged
and swallowed, never re-raised; and `main`'s `finally` runs `shutdown` on
whatever `start_listening` returned, whichever way it exited.  The code has
no `Closed` terminal state: the transcriber (flags and retained engine
reference) is unchanged by shutdown. -/
theorem C7_amended_shutdown {ρ : Type} (relOk : ρ → Bool) (t : Transcriber ρ) :
    ((shutdown relOk t).1 = t) ∧
    (shutdown relOk ((shutdown relOk t).1) = shutdown relOk t) ∧
    (∀ r, t.recorder = some r → relOk r = false →
       ShutEvent.logError "Error during shutdown" ∈ (shutdown relOk t).2 ∧
       (shutdown relOk t).1 = t) ∧
    (∀ (env : InitEnv ρ) (outs : List EngineOutcome),
       (mainRun env relOk outs).shutdownEvents =
         (shutdown relOk (start_listening env outs initTranscriber).1).2) := by
  have hpres : (shutdown relOk t).1 = t := by
    cases hr : t.recorder with
    | none => simp [shutdown, hr]
    | some r => cases hrel : relOk r <;> simp [shutdown, hr, hrel]
  refine ⟨hpres, by rw [hpres], ?_, fun env outs => rfl⟩
  intro r hr hrel
  refine ⟨?_, hpres⟩
  simp [shutdown, hr, hrel]

/-- Witness for the amended C7: a transcriber holding an engine whose
release fails still gets the failure logged, not raised. -/
theorem C7_amended_witness :
    (({ state := initTranscriberState, recorder := some 0 } : Transcriber Nat).recorder
        = some 0) ∧
    ((fun _ : Nat => false) 0 = false) ∧
    ShutEvent.logError "Error during shutdown" ∈
      (shutdown (fun _ => false)
        ({ state := initTranscriberState, recorder := some 0 } : Transcriber Nat)).2 :=
  ⟨rfl, rfl,
   ((C7_amended_shutdown (fun _ => false)
       ({ state := initTranscriberState, recorder := some 0 } : Transcriber Nat)).2.2.1
     0 rfl rfl).1⟩
